import Mathlib

/-!
Shallow embedding of the lead-scoring engine (scoring package):
`BusinessMetricsScorer`, `ContactQualityScorer`, `DigitalPresenceScorer`,
`EngagementScorer` and `PriorityCalculator`.  Python strings are modelled
as `List Char`, Python dicts as association lists, Python floats as `ℚ`
and integer bonuses as `ℤ`.  Scraper calls are modelled by passing the
already-fetched signal bundle as an explicit argument.
-/

/-- Python substring step: `segStarts needle hay` holds when `hay` begins
with `needle` (character-wise). -/
def segStarts : List Char → List Char → Bool
  | [], _ => true
  | _ :: _, [] => false
  | a :: as, b :: bs => a == b && segStarts as bs

/-- Python `needle in hay` for strings: `needle` occurs contiguously in
`hay` (the empty needle always matches, as in Python). -/
def containsSeg (needle : List Char) : List Char → Bool
  | [] => segStarts needle []
  | c :: rest => segStarts needle (c :: rest) || containsSeg needle rest

/-- Python `s.lower()` on the character-list model. -/
def lowerStr (s : List Char) : List Char :=
  s.map Char.toLower

/- ### BusinessMetricsScorer (src/scoring/business_metrics.py) -/

/-- The `business_size_scoring` config subsection. -/
structure BusinessSizeConfig where
  chain_bonus : ℤ
  premium_bonus : ℤ
  location_bonus : ℤ

/-- State of a constructed `BusinessMetricsScorer`. -/
structure BusinessMetricsScorer where
  scoring_config : BusinessSizeConfig
  chain_indicators : List (List Char)
  premium_indicators : List (List Char)

/-- `BusinessMetricsScorer.score_business_size(business_name, address, zip_code)`:
chain/premium indicator matching against the lowercased name, plus the
suite/plaza location bonus; `zip_code` is accepted but unused. -/
def BusinessMetricsScorer.score_business_size (s : BusinessMetricsScorer)
    (business_name address zip_code : List Char) : ℤ × String :=
  let nameLower := lowerStr business_name
  let chainHit := s.chain_indicators.any (fun ind => containsSeg ind nameLower)
  let premiumHit := s.premium_indicators.any (fun ind => containsSeg ind nameLower)
  let score1 : ℤ := if chainHit then 0 + s.scoring_config.chain_bonus else 0
  let cat1 : String := if chainHit then "Chain" else "Small"
  let score2 : ℤ := if premiumHit then score1 + s.scoring_config.premium_bonus else score1
  let cat2 : String := if premiumHit then "Premium" else cat1
  let addressLower := lowerStr address
  let locHit := !address.isEmpty &&
    (containsSeg ("suite".toList) addressLower || containsSeg ("plaza".toList) addressLower)
  let score3 : ℤ := if locHit then score2 + s.scoring_config.location_bonus else score2
  (score3, cat2)

/- ### ContactQualityScorer (src/scoring/contact_quality.py) -/

/-- The hardcoded personal-provider domain set from the constructor. -/
def personal_domains : List (List Char) :=
  ["gmail.com".toList, "yahoo.com".toList, "hotmail.com".toList, "outlook.com".toList]

/-- The `contact_quality_scoring` config subsection. -/
structure ContactQualityConfig where
  generic_penalty : ℤ
  decision_maker_bonus : ℤ
  personal_domain_bonus : ℤ
  business_domain_bonus : ℤ

/-- State of a constructed `ContactQualityScorer`. -/
structure ContactQualityScorer where
  scoring_config : ContactQualityConfig
  negative_keywords : List (List Char)
  dm_keywords : List (List Char)

/-- Python `email.split(chr(64))[0]`: the text before the first at-sign
(the whole string when there is none). -/
def beforeFirstAt (email : List Char) : List Char :=
  email.takeWhile (fun c => c != '@')

/-- Python `email.split(chr(64))[-1]`: the text after the last at-sign
(the whole string when there is none). -/
def afterLastAt (email : List Char) : List Char :=
  (email.reverse.takeWhile (fun c => c != '@')).reverse

/-- `ContactQualityScorer.score(email)`: 0 on empty input; the generic
penalty when a negative keyword occurs in the lowercased local part;
otherwise decision-maker bonus plus exactly one domain bonus. -/
def ContactQualityScorer.score (s : ContactQualityScorer) (email : List Char) : ℤ :=
  if email.isEmpty then 0
  else
    let email_local_part := lowerStr (beforeFirstAt email)
    let email_domain := lowerStr (afterLastAt email)
    if s.negative_keywords.any (fun k => containsSeg k email_local_part) then
      s.scoring_config.generic_penalty
    else
      let dmScore : ℤ :=
        if s.dm_keywords.any (fun k => containsSeg k email_local_part) then
          s.scoring_config.decision_maker_bonus
        else 0
      if personal_domains.contains email_domain then
        dmScore + s.scoring_config.personal_domain_bonus
      else
        dmScore + s.scoring_config.business_domain_bonus

/- ### DigitalPresenceScorer (src/scoring/digital_presence.py) -/

/-- The `digital_presence_scoring` config subsection. -/
structure DigitalPresenceConfig where
  mobile_responsive : ℤ
  seo_basics : ℤ
  online_booking : ℤ
  modern_tech : ℤ

/-- Website enrichment bundle returned by the scraper. -/
structure WebsiteSignals where
  is_accessible : Bool
  is_mobile_friendly : Bool
  has_title_and_desc : Bool
  has_booking_feature : Bool
  design_is_outdated : Bool
  design_is_modern : Bool

/-- The four boolean opportunity flags produced by `score_website_quality`. -/
structure WebOpportunities where
  needs_redesign : Bool
  needs_mobile_optimization : Bool
  needs_seo : Bool
  missing_online_booking : Bool
deriving DecidableEq

/-- State of a constructed `DigitalPresenceScorer` (the scraper is modelled
by passing its result as an argument). -/
structure DigitalPresenceScorer where
  config : DigitalPresenceConfig

/-- `DigitalPresenceScorer.score_website_quality(url)`: empty url short-circuit,
inaccessible-site short-circuit, then additive feature scoring with the
outdated/modern design precedence. -/
def DigitalPresenceScorer.score_website_quality (s : DigitalPresenceScorer)
    (url : List Char) (scraped : WebsiteSignals) : ℤ × WebOpportunities :=
  if url.isEmpty then
    (0, ⟨true, false, false, false⟩)
  else if scraped.is_accessible = false then
    (2, ⟨true, false, false, false⟩)
  else
    let mobileScore : ℤ := if scraped.is_mobile_friendly then s.config.mobile_responsive else 0
    let seoScore : ℤ := if scraped.has_title_and_desc then s.config.seo_basics else 0
    let bookingScore : ℤ := if scraped.has_booking_feature then s.config.online_booking else 0
    let designScore : ℤ :=
      if scraped.design_is_outdated then 0
      else if scraped.design_is_modern then s.config.modern_tech
      else 0
    (mobileScore + seoScore + bookingScore + designScore,
     ⟨scraped.design_is_outdated, !scraped.is_mobile_friendly,
      !scraped.has_title_and_desc, !scraped.has_booking_feature⟩)

/- ### EngagementScorer (src/scoring/engagement_metrics.py) -/

/-- The `review_opportunity_scoring` config subsection. -/
structure ReviewOpportunityConfig where
  no_reviews : ℤ
  few_reviews : ℤ
  moderate_reviews : ℤ
  many_reviews : ℤ

/-- Review enrichment bundle returned by the scraper, with the `.get`
defaults (0 and 0.0) already applied. -/
structure ScrapedReviewData where
  review_count : ℕ
  average_rating : ℚ

/-- The opportunities dict produced by `analyze_review_opportunity`. -/
structure ReviewOpportunities where
  needs_review_campaign : Bool
  review_count : ℕ
  average_rating : ℚ

/-- State of a constructed `EngagementScorer` (the scraper is modelled by
passing its result as an argument). -/
structure EngagementScorer where
  config : ReviewOpportunityConfig

/-- `EngagementScorer.analyze_review_opportunity(gmaps_url)`: bucket the
review count into the four configured tiers, then apply the
scraping-failure override when count and rating are both zero and a url
was supplied. -/
def EngagementScorer.analyze_review_opportunity (s : EngagementScorer)
    (gmaps_url : List Char) (scraped : ScrapedReviewData) : ℤ × ReviewOpportunities :=
  let review_count := scraped.review_count
  let average_rating := scraped.average_rating
  let bucketScore : ℤ :=
    if review_count = 0 then s.config.no_reviews
    else if review_count < 10 then s.config.few_reviews
    else if review_count < 25 then s.config.moderate_reviews
    else s.config.many_reviews
  let bucketNeeds : Bool :=
    if review_count = 0 then true
    else if review_count < 10 then true
    else if review_count < 25 then true
    else false
  let finalScore : ℤ :=
    if review_count = 0 ∧ average_rating = 0 ∧ gmaps_url ≠ [] then s.config.moderate_reviews
    else bucketScore
  let finalNeeds : Bool :=
    if review_count = 0 ∧ average_rating = 0 ∧ gmaps_url ≠ [] then true
    else bucketNeeds
  (finalScore, ⟨finalNeeds, review_count, average_rating⟩)

/- ### PriorityCalculator (src/scoring/priority_calculator.py) -/

/-- Raw constructor argument: each required section either absent (`none`)
or present with its entries. -/
structure PCConfig where
  scoring_weights : Option (List (String × ℚ))
  tier_thresholds : Option (List (String × ℚ))
  tier_definitions : Option (List (String × List (String × String)))

/-- State of a successfully constructed `PriorityCalculator`. -/
structure PriorityCalculator where
  weights : List (String × ℚ)
  tiers : List (String × ℚ)
  tier_defs : List (String × List (String × String))

/-- Python truthiness test `not section` on an optional dict: true when the
section is absent or empty. -/
def sectionFalsy {α : Type} (s : Option (List α)) : Bool :=
  match s with
  | none => true
  | some l => l.isEmpty

/-- `PriorityCalculator.__init__(config)`: raises `KeyError` (modelled as
`Except.error`) when a required section is absent or falsy. -/
def PriorityCalculator.init (config : PCConfig) : Except String PriorityCalculator :=
  if sectionFalsy config.scoring_weights then
    Except.error "Config is missing scoring_weights section."
  else if sectionFalsy config.tier_thresholds then
    Except.error "Config is missing tier_thresholds section."
  else if sectionFalsy config.tier_definitions then
    Except.error "Config is missing tier_definitions section."
  else
    Except.ok ⟨config.scoring_weights.getD [], config.tier_thresholds.getD [],
               config.tier_definitions.getD []⟩

/-- The weighted total of `calculate_final_score`:
`sum(scores.get(key, 0) * weights.get(key, 0) for key in weights)`. -/
def weightedTotal (weights scores : List (String × ℚ)) : ℚ :=
  (weights.map (fun kw => ((List.lookup kw.1 scores).getD 0) * ((List.lookup kw.1 weights).getD 0))).sum

/-- The tier-key selection step of `calculate_final_score`: descending
hot/warm/cold checks, each threshold read with `.get(key, 999)`, falling
through to the low tier. -/
def selectTierKey (tiers : List (String × ℚ)) (total : ℚ) : String :=
  if total ≥ ((List.lookup "hot" tiers).getD 999) then "hot"
  else if total ≥ ((List.lookup "warm" tiers).getD 999) then "warm"
  else if total ≥ ((List.lookup "cold" tiers).getD 999) then "cold"
  else "low"

/-- `PriorityCalculator.calculate_final_score(scores)`: weighted total, tier
selection, then name/value lookup with the Undefined Tier / N-slash-A
defaults. -/
def PriorityCalculator.calculate_final_score (pc : PriorityCalculator)
    (scores : List (String × ℚ)) : ℚ × String × String :=
  let total := weightedTotal pc.weights scores
  let tier_key := selectTierKey pc.tiers total
  let tier_info := (List.lookup tier_key pc.tier_defs).getD []
  let tier_name := (List.lookup "name" tier_info).getD "Undefined Tier"
  let estimated_value := (List.lookup "value" tier_info).getD "N/A"
  (total, tier_name, estimated_value)

/-- Formalisation of the spec sentence for tier selection: walk an ordered
(tier-key, threshold) list and return the first key whose threshold the
total meets or exceeds, falling through to the low tier. -/
def firstTierGE (ordered : List (String × ℚ)) (total : ℚ) : String :=
  match ordered with
  | [] => "low"
  | (k, t) :: rest => if total ≥ t then k else firstTierGE rest total

example : containsSeg "suite".toList (lowerStr "12 Main St Suite 5".toList) = true := by decide

example :
    (BusinessMetricsScorer.score_business_size
      ⟨⟨15, 10, 5⟩, ["gold".toList], ["elite".toList]⟩
      "Gold Elite Gym".toList "12 Plaza".toList "99999".toList) = (30, "Premium") := by decide

example :
    (ContactQualityScorer.score ⟨⟨5, 10, 3, 7⟩, ["info".toList], ["owner".toList]⟩
      "info@smallgym.com".toList) = 5 := by decide

example :
    (ContactQualityScorer.score ⟨⟨5, 10, 3, 7⟩, ["info".toList], ["owner".toList]⟩
      "owner@gmail.com".toList) = 13 := by decide

example :
    (DigitalPresenceScorer.score_website_quality ⟨⟨3, 2, 4, 2⟩⟩ "http://x.com".toList
      ⟨false, true, true, true, false, true⟩) = (2, ⟨true, false, false, false⟩) := by decide

example :
    (EngagementScorer.analyze_review_opportunity ⟨⟨2, 5, 8, 10⟩⟩ "maps".toList ⟨0, 0⟩).1 = 8 := by
  decide

example :
    (EngagementScorer.analyze_review_opportunity ⟨⟨2, 5, 8, 10⟩⟩ [] ⟨0, 0⟩).1 = 2 := by decide

example :
    PriorityCalculator.init ⟨some [("ds", 1)], some [], some []⟩ =
      Except.error "Config is missing tier_thresholds section." := rfl

example :
    PriorityCalculator.calculate_final_score
      ⟨[("a", 2)], [("hot", 80), ("warm", 50), ("cold", 25)],
       [("hot", [("name", "Hot Lead"), ("value", "$500")])]⟩
      [("a", 40)] = (80, "Hot Lead", "$500") := by
  have h : weightedTotal [("a", 2)] [("a", 40)] = 80 := by norm_num [weightedTotal, List.lookup]
  simp only [PriorityCalculator.calculate_final_score, h]
  decide

example :
    PriorityCalculator.calculate_final_score
      ⟨[("a", 2)], [("warm", 50)], []⟩ [("a", 40)] = (80, "Undefined Tier", "N/A") := by
  have h : weightedTotal [("a", 2)] [("a", 40)] = 80 := by norm_num [weightedTotal, List.lookup]
  simp only [PriorityCalculator.calculate_final_score, h]
  decide

example : selectTierKey [("hot", 80), ("warm", 50), ("cold", 25)] 79 = "warm" := by decide

/- ### Claim theorems -/

/-- Claim C7: `score_business_size` is independent of the `zip_code`
argument: for any two zip codes the returned score and category coincide
(noninterference). -/
theorem c7_zip_code_noninterference (s : BusinessMetricsScorer)
    (business_name address z1 z2 : List Char) :
    s.score_business_size business_name address z1 =
      s.score_business_size business_name address z2 := rfl

/-- Claim C6: for a non-empty website url whose fetched signals report the
site inaccessible, `score_website_quality` returns exactly score 2 with
`needs_redesign` true and the other three opportunity flags false. -/
theorem c6_inaccessible_short_circuit (s : DigitalPresenceScorer)
    (url : List Char) (scraped : WebsiteSignals)
    (hurl : url ≠ []) (hacc : scraped.is_accessible = false) :
    s.score_website_quality url scraped = (2, ⟨true, false, false, false⟩) := by
  have h : url.isEmpty = false := by
    cases url with
    | nil => exact absurd rfl hurl
    | cons c cs => rfl
  simp [DigitalPresenceScorer.score_website_quality, h, hacc]

theorem c6_inaccessible_short_circuit_witness :
    DigitalPresenceScorer.score_website_quality ⟨⟨3, 2, 4, 2⟩⟩ ("http://x.com".toList)
      ⟨false, true, true, true, false, true⟩ = (2, ⟨true, false, false, false⟩) :=
  c6_inaccessible_short_circuit _ _ _ (by decide) rfl

/-- Claim C3: for a non-empty email whose lowercased local part (text
before the first at-sign) contains a configured negative keyword,
`ContactQualityScorer.score` returns exactly the generic penalty, whatever
the domain and decision-maker keywords are. -/
theorem c3_negative_keyword_generic_penalty (s : ContactQualityScorer)
    (email : List Char) (hne : email ≠ [])
    (hneg : s.negative_keywords.any
      (fun k => containsSeg k (lowerStr (beforeFirstAt email))) = true) :
    s.score email = s.scoring_config.generic_penalty := by
  have h : email.isEmpty = false := by
    cases email with
    | nil => exact absurd rfl hne
    | cons c cs => rfl
  simp [ContactQualityScorer.score, h, hneg]

theorem c3_negative_keyword_generic_penalty_witness :
    ContactQualityScorer.score ⟨⟨5, 10, 3, 7⟩, ["info".toList], ["owner".toList]⟩
      ("info.owner@gmail.com".toList) = 5 :=
  c3_negative_keyword_generic_penalty _ _ (by decide) (by decide)

/-- Claim C4: with zero review count and zero average rating,
`analyze_review_opportunity` overrides the score to `moderate_reviews`
with `needs_review_campaign` set when a maps url was supplied, and keeps
the `no_reviews` score when the url is empty. -/
theorem c4_enrichment_failure_override (s : EngagementScorer)
    (gmaps_url : List Char) (scraped : ScrapedReviewData)
    (hc : scraped.review_count = 0) (hr : scraped.average_rating = 0) :
    (gmaps_url ≠ [] →
      (s.analyze_review_opportunity gmaps_url scraped).1 = s.config.moderate_reviews ∧
      (s.analyze_review_opportunity gmaps_url scraped).2.needs_review_campaign = true) ∧
    (gmaps_url = [] →
      (s.analyze_review_opportunity gmaps_url scraped).1 = s.config.no_reviews) := by
  constructor
  · intro hu
    simp [EngagementScorer.analyze_review_opportunity, hc, hr, hu]
  · intro hu
    subst hu
    simp [EngagementScorer.analyze_review_opportunity, hc, hr]

theorem c4_enrichment_failure_override_witness :
    ((EngagementScorer.analyze_review_opportunity ⟨⟨2, 5, 8, 10⟩⟩ ("maps".toList) ⟨0, 0⟩).1 = 8 ∧
     (EngagementScorer.analyze_review_opportunity ⟨⟨2, 5, 8, 10⟩⟩
        ("maps".toList) ⟨0, 0⟩).2.needs_review_campaign = true) ∧
    (EngagementScorer.analyze_review_opportunity ⟨⟨2, 5, 8, 10⟩⟩ [] ⟨0, 0⟩).1 = 2 := by
  have h1 := c4_enrichment_failure_override ⟨⟨2, 5, 8, 10⟩⟩ ("maps".toList) ⟨0, 0⟩ rfl rfl
  have h2 := c4_enrichment_failure_override ⟨⟨2, 5, 8, 10⟩⟩ [] ⟨0, 0⟩ rfl rfl
  exact ⟨h1.1 (by decide), h2.2 rfl⟩

/-- Claim C5: `needs_review_campaign` is false exactly when the review
count reaches the many-reviews bucket (25 or more); every lower count,
including the enrichment-failure override, sets the flag. -/
theorem c5_campaign_flag_iff_many_reviews (s : EngagementScorer)
    (gmaps_url : List Char) (scraped : ScrapedReviewData) :
    ((s.analyze_review_opportunity gmaps_url scraped).2.needs_review_campaign = false) ↔
      25 ≤ scraped.review_count := by
  simp only [EngagementScorer.analyze_review_opportunity]
  split_ifs <;> simp_all <;> omega

/-- Claim C9: `ContactQualityScorer.score` depends only on the text before
the first at-sign and the text after the last at-sign; middle segments of
an email with several at-signs influence nothing, and on
a\x40b\x40gmail.com the parts are a and gmail.com. -/
theorem c9_multiple_at_signs (s : ContactQualityScorer) :
    (∀ e1 e2 : List Char, e1 ≠ [] → e2 ≠ [] →
        beforeFirstAt e1 = beforeFirstAt e2 → afterLastAt e1 = afterLastAt e2 →
        s.score e1 = s.score e2) ∧
    beforeFirstAt ("a@b@gmail.com".toList) = "a".toList ∧
    afterLastAt ("a@b@gmail.com".toList) = "gmail.com".toList := by
  refine ⟨?_, by decide, by decide⟩
  intro e1 e2 h1 h2 hb ha
  have he1 : e1.isEmpty = false := by
    cases e1 with
    | nil => exact absurd rfl h1
    | cons c cs => rfl
  have he2 : e2.isEmpty = false := by
    cases e2 with
    | nil => exact absurd rfl h2
    | cons c cs => rfl
  simp [ContactQualityScorer.score, he1, he2, hb, ha]

theorem c9_multiple_at_signs_witness :
    ContactQualityScorer.score ⟨⟨5, 10, 3, 7⟩, ["info".toList], ["owner".toList]⟩
        ("a@b@gmail.com".toList) =
      ContactQualityScorer.score ⟨⟨5, 10, 3, 7⟩, ["info".toList], ["owner".toList]⟩
        ("a@x@y@gmail.com".toList) :=
  (c9_multiple_at_signs _).1 _ _ (by decide) (by decide) (by decide) (by decide)

/-- Helper: a non-empty needle can only occur inside a non-empty haystack. -/
theorem containsSeg_ne_nil {needle hay : List Char}
    (hne : needle ≠ []) (h : containsSeg needle hay = true) : hay ≠ [] := by
  intro hh
  subst hh
  cases needle with
  | nil => exact hne rfl
  | cons c cs => simp [containsSeg, segStarts] at h

/-- Claim C2: a business name matching both a chain indicator and a premium
indicator is categorised Premium (never Chain) and earns both bonuses
summed, plus the location bonus exactly when the address contains suite
or plaza. -/
theorem c2_premium_overrides_chain (s : BusinessMetricsScorer)
    (business_name address zip_code : List Char)
    (hchain : s.chain_indicators.any
      (fun ind => containsSeg ind (lowerStr business_name)) = true)
    (hprem : s.premium_indicators.any
      (fun ind => containsSeg ind (lowerStr business_name)) = true) :
    (s.score_business_size business_name address zip_code).2 = "Premium" ∧
    (s.score_business_size business_name address zip_code).1 =
      s.scoring_config.chain_bonus + s.scoring_config.premium_bonus +
        (if (containsSeg ("suite".toList) (lowerStr address) ||
             containsSeg ("plaza".toList) (lowerStr address)) = true
         then s.scoring_config.location_bonus else 0) := by
  by_cases hloc : (containsSeg ("suite".toList) (lowerStr address) ||
      containsSeg ("plaza".toList) (lowerStr address)) = true
  · have hor : containsSeg ("suite".toList) (lowerStr address) = true ∨
        containsSeg ("plaza".toList) (lowerStr address) = true := by simpa using hloc
    have hlow : lowerStr address ≠ [] := by
      rcases hor with h | h
      · exact containsSeg_ne_nil (by decide) h
      · exact containsSeg_ne_nil (by decide) h
    have hadd : address ≠ [] := fun hh => hlow (by simp [hh, lowerStr])
    simp [BusinessMetricsScorer.score_business_size, hchain, hprem]
    split_ifs <;> first | omega | tauto
  · have hor' : ¬(containsSeg ("suite".toList) (lowerStr address) = true ∨
        containsSeg ("plaza".toList) (lowerStr address) = true) := by simpa using hloc
    simp [BusinessMetricsScorer.score_business_size, hchain, hprem]
    split_ifs <;> first | omega | tauto

theorem c2_premium_overrides_chain_witness :
    (BusinessMetricsScorer.score_business_size ⟨⟨15, 10, 5⟩, ["gold".toList], ["elite".toList]⟩
      ("Gold Elite Gym".toList) ("12 Plaza".toList) ("99999".toList)).2 = "Premium" ∧
    (BusinessMetricsScorer.score_business_size ⟨⟨15, 10, 5⟩, ["gold".toList], ["elite".toList]⟩
      ("Gold Elite Gym".toList) ("12 Plaza".toList) ("99999".toList)).1 = 30 := by
  have h := c2_premium_overrides_chain ⟨⟨15, 10, 5⟩, ["gold".toList], ["elite".toList]⟩
    ("Gold Elite Gym".toList) ("12 Plaza".toList) ("99999".toList) (by decide) (by decide)
  refine ⟨h.1, ?_⟩
  rw [h.2]
  decide

/-- Claim C1: with hot, warm and cold thresholds all configured and
monotone (cold below warm below hot), tier selection on the weighted
total is the first-match walk over hot, warm, cold with inclusive lower
bounds and low as catch-all; a total exactly at the hot threshold lands
hot, and one unit below (when warm is at most hot minus one) lands warm. -/
theorem c1_tier_selection_order (tiers : List (String × ℚ)) (hotT warmT coldT : ℚ)
    (hhot : List.lookup "hot" tiers = some hotT)
    (hwarm : List.lookup "warm" tiers = some warmT)
    (hcold : List.lookup "cold" tiers = some coldT)
    (hcw : coldT ≤ warmT) (hwh : warmT ≤ hotT)
    (weights scores : List (String × ℚ)) :
    selectTierKey tiers (weightedTotal weights scores) =
      firstTierGE [("hot", hotT), ("warm", warmT), ("cold", coldT)]
        (weightedTotal weights scores) ∧
    (weightedTotal weights scores = hotT →
      selectTierKey tiers (weightedTotal weights scores) = "hot") ∧
    (warmT ≤ hotT - 1 → weightedTotal weights scores = hotT - 1 →
      selectTierKey tiers (weightedTotal weights scores) = "warm") := by
  refine ⟨?_, ?_, ?_⟩
  · simp [selectTierKey, firstTierGE, hhot, hwarm, hcold]
  · intro h
    rw [h]
    simp [selectTierKey, hhot]
  · intro hle h
    rw [h]
    have h1 : ¬(hotT ≤ hotT - 1) := by linarith
    simp [selectTierKey, hhot, hwarm, h1, hle]

theorem c1_tier_selection_order_witness :
    selectTierKey [("hot", (80 : ℚ)), ("warm", 50), ("cold", 25)]
        (weightedTotal [("a", 2)] [("a", 40)]) =
      firstTierGE [("hot", (80 : ℚ)), ("warm", 50), ("cold", 25)]
        (weightedTotal [("a", 2)] [("a", 40)]) ∧
    selectTierKey [("hot", (80 : ℚ)), ("warm", 50), ("cold", 25)]
        (weightedTotal [("a", 2)] [("a", 40)]) = "hot" := by
  have h := c1_tier_selection_order [("hot", (80 : ℚ)), ("warm", 50), ("cold", 25)]
    80 50 25 (by decide) (by decide) (by decide) (by decide) (by decide)
    [("a", 2)] [("a", 40)]
  exact ⟨h.1, h.2.1 (by norm_num [weightedTotal, List.lookup])⟩

/-- Claim C8: `PriorityCalculator` construction fails (raises `KeyError`)
exactly when one of the three required sections is absent or present but
empty: an empty section is fatal, not only a missing one. -/
theorem c8_empty_section_fatal (config : PCConfig) :
    (∃ msg, PriorityCalculator.init config = Except.error msg) ↔
      (config.scoring_weights = none ∨ config.scoring_weights = some [] ∨
       config.tier_thresholds = none ∨ config.tier_thresholds = some [] ∨
       config.tier_definitions = none ∨ config.tier_definitions = some []) := by
  rcases config with ⟨sw, tt, td⟩
  rcases sw with _ | (_ | ⟨w, ws⟩) <;> rcases tt with _ | (_ | ⟨t, ts⟩) <;>
    rcases td with _ | (_ | ⟨d, ds⟩) <;>
    simp [PriorityCalculator.init, sectionFalsy]

/-- Claim C10: `calculate_final_score` is total over any constructed
calculator state; a threshold key absent from `tier_thresholds` defaults
to 999, so that tier is only selected when the total reaches 999, and a
matched tier key absent from `tier_definitions` yields the Undefined
Tier name and the N-slash-A value instead of an error. -/
theorem c10_missing_key_defaults (pc : PriorityCalculator) (scores : List (String × ℚ)) :
    (List.lookup "hot" pc.tiers = none →
      (selectTierKey pc.tiers (weightedTotal pc.weights scores) = "hot" ↔
        999 ≤ weightedTotal pc.weights scores)) ∧
    (List.lookup "warm" pc.tiers = none →
      selectTierKey pc.tiers (weightedTotal pc.weights scores) = "warm" →
      999 ≤ weightedTotal pc.weights scores) ∧
    (List.lookup "cold" pc.tiers = none →
      selectTierKey pc.tiers (weightedTotal pc.weights scores) = "cold" →
      999 ≤ weightedTotal pc.weights scores) ∧
    (List.lookup (selectTierKey pc.tiers (weightedTotal pc.weights scores)) pc.tier_defs = none →
      (pc.calculate_final_score scores).2.1 = "Undefined Tier" ∧
      (pc.calculate_final_score scores).2.2 = "N/A") := by
  refine ⟨?_, ?_, ?_, ?_⟩
  · intro h
    simp only [selectTierKey, h, Option.getD]
    split_ifs <;> simp_all
  · intro h hsel
    simp only [selectTierKey, h, Option.getD] at hsel
    split_ifs at hsel <;> simp_all
  · intro h hsel
    simp only [selectTierKey, h, Option.getD] at hsel
    split_ifs at hsel <;> simp_all
  · intro h
    simp [PriorityCalculator.calculate_final_score, h, List.lookup]

theorem c10_missing_key_defaults_witness :
    ((999 : ℚ) ≤ weightedTotal [("a", 1)] [("a", 1000)]) ∧
    (PriorityCalculator.calculate_final_score ⟨[], [], []⟩ []).2.1 = "Undefined Tier" ∧
    (PriorityCalculator.calculate_final_score ⟨[], [], []⟩ []).2.2 = "N/A" := by
  have ht : weightedTotal [("a", 1)] [("a", 1000)] = 1000 := by
    norm_num [weightedTotal, List.lookup]
  have hsel : selectTierKey [("hot", 2000)] (weightedTotal [("a", 1)] [("a", 1000)]) = "warm" := by
    rw [ht]
    decide
  have h1 := (c10_missing_key_defaults ⟨[("a", 1)], [("hot", 2000)], []⟩ [("a", 1000)]).2.1
    rfl hsel
  have h2 := (c10_missing_key_defaults ⟨[], [], []⟩ []).2.2.2 rfl
  exact ⟨h1, h2⟩

theorem c5_campaign_flag_iff_many_reviews_witness :
    (EngagementScorer.analyze_review_opportunity ⟨⟨2, 5, 8, 10⟩⟩
      ("maps".toList) ⟨30, 4⟩).2.needs_review_campaign = false :=
  (c5_campaign_flag_iff_many_reviews ⟨⟨2, 5, 8, 10⟩⟩ ("maps".toList) ⟨30, 4⟩).mpr (by decide)

theorem c8_empty_section_fatal_witness :
    ∃ msg, PriorityCalculator.init
      ⟨some [("digital_presence", 1)], some [], some [("hot", [("name", "Hot")])]⟩ =
        Except.error msg :=
  (c8_empty_section_fatal
      ⟨some [("digital_presence", 1)], some [], some [("hot", [("name", "Hot")])]⟩).mpr
    (Or.inr (Or.inr (Or.inr (Or.inl rfl))))
